import Mathlib

/-!
Verification of the SIM7080G modem driver (`gsmlte.cpp` / `gsmlte.h`).

The development is a shallow embedding of the driver's code:

* the byte-level response matchers (`waitForToken`, `waitForAnyToken`, the
  inline response loop of `sendATCommand`) are modelled over explicit byte
  arrival schedules: a schedule assigns to each one-millisecond poll cycle
  the list of characters that became available during that cycle;
* the adaptive timeout policy (`getAdaptiveTimeout`) and the effective
  deadline computation shared by `sendATCommand` and `readResponse` are
  modelled as pure functions of the driver's global state;
* the persistent-TCP layer (`tcpInitPersistent`, `tcpIsPersistentActive`,
  `tcpKeepAlivePersistent`, `tcpReconnectPersistent`, `tcpSendPersistent`,
  `tcpClosePersistent`, `tcpConfigurePersistent`, `tcpSendData`) is modelled
  as state-passing functions over a `World` that carries the driver's
  globals, the remaining serial environment (one entry per blocking wait,
  holding the bytes the modem delivered inside that wait's window), and the
  trace of writes issued to the modem.

All times are in milliseconds; `millis()` values are natural numbers and the
32-bit unsigned subtraction of the source is modelled by `usub32`.
-/

/-- `hay.indexOf(pat) != -1` of Arduino `String`: does `pat` occur as a
contiguous substring of `hay`? -/
def hasSubstr (pat : List Char) : List Char → Bool
  | [] => pat.isEmpty
  | c :: rest => pat.isPrefixOf (c :: rest) || hasSubstr pat rest

/-- The rolling-buffer trim used by the source's wait loops: once the buffer
length exceeds `cap`, only the most recent `keep` characters are retained
(`buf.remove(0, buf.length() - keep)`). -/
def trimBuf (cap keep : Nat) (buf : List Char) : List Char :=
  if buf.length > cap then buf.drop (buf.length - keep) else buf

/-- Inner drain loop of `waitForToken`: consume the bytes available in the
current poll cycle one at a time; after each byte the buffer is trimmed
(cap 512, keep 256) and searched for `token` (`buf.indexOf(token) >= 0`),
returning as soon as the token is found. -/
def drainTok (token buf : List Char) : List Char → Bool × List Char
  | [] => (false, buf)
  | c :: rest =>
    let buf1 := trimBuf 512 256 (buf ++ [c])
    if hasSubstr token buf1 then (true, buf1) else drainTok token buf1 rest

/-- Outer loop of `waitForToken` over the poll cycles that fit inside the
deadline. Returns the outcome, the number of elapsed poll cycles at return
(equal to the number of cycles when the deadline elapses unmatched), and the
final buffer. -/
def waitForTokenAux (token buf : List Char) : List (List Char) → Bool × Nat × List Char
  | [] => (false, 0, buf)
  | poll :: rest =>
    let r := drainTok token buf poll
    if r.1 then (true, 0, r.2)
    else
      let q := waitForTokenAux token r.2 rest
      (q.1, q.2.1 + 1, q.2.2)

/-- `waitForToken(s, token, timeout_ms)`: the stream `sched` tells which bytes
become available at each poll cycle; the loop runs for `timeout` cycles. -/
def waitForToken (token : List Char) (sched : Nat → List Char) (timeout : Nat) :
    Bool × Nat × List Char :=
  waitForTokenAux token [] ((List.range timeout).map sched)

/-- Pure buffer accumulation (same append-and-trim discipline as
`waitForToken`, with no early return): the buffer contents after a sequence
of bytes has been consumed. -/
def accumBuf (buf : List Char) : List Char → List Char
  | [] => buf
  | c :: rest => accumBuf (trimBuf 512 256 (buf ++ [c])) rest

/-- Does any token of `toks` occur as a substring of `buf`? (the source's
`buf.indexOf(tok[i]) >= 0` loop). -/
def tokenHit (buf : List Char) (toks : List (List Char)) : Bool :=
  toks.any (fun t => hasSubstr t buf)

/-- Per-byte classification of `waitForAnyToken`: error tokens are tested
before success tokens; `-1` = error, `1` = success, `0` = no match yet. -/
def classifyTok (okT errT : List (List Char)) (buf : List Char) : Int :=
  if tokenHit buf errT then -1 else if tokenHit buf okT then 1 else 0

/-- Inner drain loop of `waitForAnyToken`: buffer cap 1024, keep 512; each
appended byte is followed by the error-first classification. -/
def drainAny (okT errT : List (List Char)) (buf : List Char) : List Char → Int × List Char
  | [] => (0, buf)
  | c :: rest =>
    let buf1 := trimBuf 1024 512 (buf ++ [c])
    let r := classifyTok okT errT buf1
    if r = 0 then drainAny okT errT buf1 rest else (r, buf1)

/-- Outer loop of `waitForAnyToken` over poll cycles, returning outcome,
elapsed cycles at return, and the final buffer. -/
def waitForAnyAux (okT errT : List (List Char)) (buf : List Char) :
    List (List Char) → Int × Nat × List Char
  | [] => (0, 0, buf)
  | poll :: rest =>
    let r := drainAny okT errT buf poll
    if r.1 = 0 then
      let q := waitForAnyAux okT errT r.2 rest
      (q.1, q.2.1 + 1, q.2.2)
    else (r.1, 0, r.2)

/-- `waitForAnyToken(s, okTokens, okCount, errTokens, errCount, timeout_ms)`
over a byte arrival schedule; `1` = OK, `-1` = error, `0` = timeout. -/
def waitForAnyToken (okT errT : List (List Char)) (sched : Nat → List Char)
    (timeout : Nat) : Int × Nat × List Char :=
  waitForAnyAux okT errT [] ((List.range timeout).map sched)

/-- The response-collection loop of `sendATCommand` (byte level): it drains
every poll cycle until the deadline with no early exit, returning the
accumulated response and the number of poll cycles consumed. -/
def sendATGather (resp : List Char) : List (List Char) → List Char × Nat
  | [] => (resp, 0)
  | poll :: rest =>
    let q := sendATGather (resp ++ poll) rest
    (q.1, q.2 + 1)

/-- Byte-level model of `sendATCommand`'s wait: collect all bytes delivered
during the whole deadline window (`polls`), then test
`response.indexOf(expectedResponse) != -1` once. The second component is the
number of poll cycles consumed before the function returns. -/
def sendATCommandBytes (expected : List Char) (polls : List (List Char)) : Bool × Nat :=
  let g := sendATGather [] polls
  (hasSubstr expected g.1, g.2)

/-- The driver's global state (`gsmlte.cpp` globals that the verified claims
touch), plus the current `millis()` clock. -/
structure GsmSt where
  tcpConnected : Bool
  lastTcpActivity : Nat
  tcpReconnectAttempts : Nat
  tcpKeepAliveInterval : Nat
  consecutiveFailures : Nat
  signalsim0 : Int
  now : Nat
deriving DecidableEq, Repr

/-- `MAX_RECONNECT_ATTEMPTS` from the source. -/
def MAX_RECONNECT_ATTEMPTS : Nat := 3

/-- `getAdaptiveTimeout()`: base from signal quality tiers, plus a linear
penalty of 500 ms per consecutive failure, clamped to 8000 above and 2000
below. (`modemConfig.baseTimeout` is overwritten in every branch.) -/
def getAdaptiveTimeout (st : GsmSt) : Nat :=
  let base0 : Nat := if st.signalsim0 > 15 then 2000
    else if st.signalsim0 < 5 then 5000 else 3000
  let base1 : Nat := if st.consecutiveFailures > 0
    then base0 + st.consecutiveFailures * 500 else base0
  let base2 : Nat := if base1 > 8000 then 8000 else base1
  if base2 < 2000 then 2000 else base2

/-- The effective deadline computed by both `sendATCommand` and
`readResponse`: `(timeout > adaptiveTimeout) ? timeout : adaptiveTimeout`. -/
def finalTimeout (timeout : Nat) (st : GsmSt) : Nat :=
  let adaptive := getAdaptiveTimeout st
  if timeout > adaptive then timeout else adaptive

/-- 32-bit unsigned subtraction (`unsigned long` arithmetic on ESP32):
`(a - b) mod 2^32`. -/
def usub32 (a b : Nat) : Nat :=
  (a + (4294967296 - b % 4294967296)) % 4294967296

/-- One blocking wait's worth of serial input: the bytes the modem delivered
inside the wait's window, and the wall-clock time the wait consumed (for
waits with an early return; `sendATCommand` always blocks its full effective
deadline). -/
structure Exchange where
  resp : List Char
  dur : Nat
deriving DecidableEq, Repr

/-- Pop the next exchange off the serial environment; an exhausted
environment behaves as a silent modem. -/
def nextEx : List Exchange → Exchange × List Exchange
  | [] => (⟨[], 0⟩, [])
  | e :: r => (e, r)

/-- One write to the modem, tagged by its call site in the source:
`atCmd` is `modem.sendAT(command)` inside `sendATCommand`; `casendHdr` is the
`+CASEND=0,<len>` line of `tcpSendData`; `payload` and `lineEnd` are
`tcpSendData`'s raw payload write and `"\r\n"` terminator. -/
inductive SEvent where
  | atCmd (cmd : List Char)
  | casendHdr (hdr : List Char)
  | payload (bytes : List Char)
  | lineEnd
deriving DecidableEq, Repr

/-- The whole mutable picture a driver call operates on: the global state,
the remaining serial environment, and the trace of writes issued so far. -/
structure World where
  st : GsmSt
  env : List Exchange
  events : List SEvent
deriving DecidableEq, Repr

/-- `sendATCommand(command, expectedResponse, timeout)` at the session level:
flush, write the command, collect serial input for the full effective
deadline, then test `response.indexOf(expectedResponse) != -1` once. The
global counters are untouched; only the clock advances (by the full
effective deadline — the loop has no early exit). -/
def sendATCommand (command expected : List Char) (timeout : Nat) (w : World) :
    Bool × World :=
  let ft := finalTimeout timeout w.st
  let ex := (nextEx w.env).1
  (hasSubstr expected ex.resp,
    { st := { w.st with now := w.st.now + ft },
      env := (nextEx w.env).2,
      events := w.events ++ [SEvent.atCmd command] })

/-- `readResponse(timeout)`: flush, then collect serial input for the full
effective deadline (`max(timeout, getAdaptiveTimeout())`) and return it. -/
def readResponse (timeout : Nat) (w : World) : List Char × World :=
  let ft := finalTimeout timeout w.st
  let ex := (nextEx w.env).1
  (ex.resp,
    { st := { w.st with now := w.st.now + ft },
      env := (nextEx w.env).2,
      events := w.events })

/-- `"+CASEND=0," + String(len)` of `tcpSendData`. -/
def casendHdrStr (len : Nat) : List Char :=
  "+CASEND=0,".data ++ Nat.toDigits 10 len

/-- Success tokens of `tcpSendData`'s result wait. -/
def sendOkTokens : List (List Char) :=
  ["CADATAIND: 0".data, "SEND OK".data, "OK".data]

/-- Error tokens of `tcpSendData`'s result wait. -/
def sendErrTokens : List (List Char) :=
  ["SEND FAIL".data, "ERROR".data, "+CME ERROR".data, "+CMS ERROR".data]

/-- `tcpSendData(datos, timeout_ms)`: write the `+CASEND=0,<len>` header
(`len = datos.length() + 2`), wait for the `>` prompt with `waitForToken`
(its incremental search applied to the bytes this wait delivered), then
write the payload plus terminator and classify the reply with
`waitForAnyToken` (error tokens first); only outcome `1` is success. -/
def tcpSendData (datos : List Char) (timeout : Nat) (w : World) : Bool × World :=
  let hdr := casendHdrStr (datos.length + 2)
  let ex1 := (nextEx w.env).1
  let w1 : World :=
    { st := { w.st with now := w.st.now + ex1.dur },
      env := (nextEx w.env).2,
      events := w.events ++ [SEvent.casendHdr hdr] }
  if (waitForTokenAux ['>'] [] [ex1.resp]).1 then
    let ex2 := (nextEx w1.env).1
    let r := (waitForAnyAux sendOkTokens sendErrTokens [] [ex2.resp]).1
    (r == 1,
      { st := { w1.st with now := w1.st.now + ex2.dur },
        env := (nextEx w1.env).2,
        events := w1.events ++ [SEvent.payload datos, SEvent.lineEnd] })
  else (false, w1)

/-- `delay(ms)`: the clock advances. -/
def delayW (ms : Nat) (w : World) : World :=
  { w with st := { w.st with now := w.st.now + ms } }

/-- Time passing between two driver calls: `millis()` has moved on to `t`. -/
def setNow (t : Nat) (w : World) : World :=
  { w with st := { w.st with now := t } }

/-- `tcpConnected = false;` -/
def markDisconnected (w : World) : World :=
  { w with st := { w.st with tcpConnected := false } }

/-- `lastTcpActivity = millis();` -/
def touchActivity (w : World) : World :=
  { w with st := { w.st with lastTcpActivity := w.st.now } }

/-- `"+CASTATE?"` status query (the keep-alive / active-check probe). -/
def castateCmd : List Char := "+CASTATE?".data

/-- `"+CASTATE: 0,1"`, the established-state reply token. -/
def castateOk : List Char := "+CASTATE: 0,1".data

/-- `"+CACLOSE=0"`, the close command. -/
def cacloseCmd : List Char := "+CACLOSE=0".data

/-- Generic `"OK"` acknowledgement token. -/
def okTok : List Char := "OK".data

/-- The `+CAOPEN` open command with the configured server and port
(`initModemConfig` fills `modemConfig` from `DB_SERVER_IP` / `TCP_PORT`). -/
def caopenCmd : List Char :=
  "+CAOPEN=0,0,\"TCP\",\"dp01.lolaberries.com.mx\",12607".data

/-- `"+CAOPEN: 0,0"`, the successful-open reply token. -/
def caopenOk : List Char := "+CAOPEN: 0,0".data

/-- `tcpInitPersistent()`: clears `tcpConnected` and zeroes
`tcpReconnectAttempts` first, then issues the open command; on success sets
`tcpConnected` and stamps `lastTcpActivity`. -/
def tcpInitPersistent (w : World) : Bool × World :=
  let w0 : World := { w with st := { w.st with tcpConnected := false, tcpReconnectAttempts := 0 } }
  let r := sendATCommand caopenCmd caopenOk (getAdaptiveTimeout w0.st) w0
  if r.1 then
    (true, { r.2 with st := { r.2.st with tcpConnected := true, lastTcpActivity := r.2.st.now } })
  else (false, r.2)

/-- `tcpIsPersistentActive()`: false immediately when not connected;
otherwise queries `+CASTATE?`, stamping `lastTcpActivity` on success and
clearing `tcpConnected` on failure. -/
def tcpIsPersistentActive (w : World) : Bool × World :=
  if w.st.tcpConnected then
    let r := sendATCommand castateCmd castateOk 5000 w
    if r.1 then (true, { r.2 with st := { r.2.st with lastTcpActivity := r.2.st.now } })
    else (false, { r.2 with st := { r.2.st with tcpConnected := false } })
  else (false, w)

/-- `tcpKeepAlivePersistent()`: probes `+CASTATE?` only when connected and
`currentTime - lastTcpActivity > tcpKeepAliveInterval` (32-bit unsigned);
on success rearms the timer to the call's entry time, on failure clears
`tcpConnected`; otherwise returns `tcpConnected` untouched. -/
def tcpKeepAlivePersistent (w : World) : Bool × World :=
  let currentTime := w.st.now
  if w.st.tcpConnected = true ∧
      usub32 currentTime w.st.lastTcpActivity > w.st.tcpKeepAliveInterval then
    let r := sendATCommand castateCmd castateOk 5000 w
    if r.1 then (true, { r.2 with st := { r.2.st with lastTcpActivity := currentTime } })
    else (false, { r.2 with st := { r.2.st with tcpConnected := false } })
  else (w.st.tcpConnected, w)

/-- `tcpReconnectPersistent()`: immediate success when already connected;
refuses once `tcpReconnectAttempts >= MAX_RECONNECT_ATTEMPTS`; otherwise
increments the attempt counter, best-effort closes, reopens, and on success
sets `tcpConnected`, stamps `lastTcpActivity` and zeroes the counter. -/
def tcpReconnectPersistent (w : World) : Bool × World :=
  if w.st.tcpConnected then (true, w)
  else if w.st.tcpReconnectAttempts ≥ MAX_RECONNECT_ATTEMPTS then (false, w)
  else
    let w0 : World :=
      { w with st := { w.st with tcpReconnectAttempts := w.st.tcpReconnectAttempts + 1 } }
    let r1 := sendATCommand cacloseCmd okTok 3000 w0
    let w1 := delayW 1000 r1.2
    let r2 := sendATCommand caopenCmd caopenOk (getAdaptiveTimeout w1.st) w1
    if r2.1 then
      (true, { r2.2 with
               st := { r2.2.st with
                       tcpConnected := true
                       lastTcpActivity := r2.2.st.now
                       tcpReconnectAttempts := 0 } })
    else (false, r2.2)

/-- `tcpClosePersistent()`: when connected, issues the close command and
clears both `tcpConnected` and `tcpReconnectAttempts`; otherwise a no-op. -/
def tcpClosePersistent (w : World) : World :=
  if w.st.tcpConnected then
    let r := sendATCommand cacloseCmd okTok (getAdaptiveTimeout w.st) w
    { r.2 with st := { r.2.st with tcpConnected := false, tcpReconnectAttempts := 0 } }
  else w

/-- `tcpConfigurePersistent(keepAliveIntervalMs)`: stores the interval. -/
def tcpConfigurePersistent (keepAliveIntervalMs : Nat) (w : World) : World :=
  { w with st := { w.st with tcpKeepAliveInterval := keepAliveIntervalMs } }

/-- The entry guard of `tcpSendPersistent`:
`if (!tcpIsPersistentActive()) { if (!tcpReconnectPersistent()) ... }`. -/
def sessionReady (w : World) : Bool × World :=
  let a := tcpIsPersistentActive w
  if a.1 then (true, a.2) else tcpReconnectPersistent a.2

/-- `tcpSendPersistent(datos, timeout_ms)`: ensure a session, send; on send
failure mark disconnected, reconnect once, and retry the send exactly once;
every successful send stamps `lastTcpActivity`. -/
def tcpSendPersistent (datos : List Char) (timeout : Nat) (w : World) : Bool × World :=
  let a := sessionReady w
  if a.1 then
    let s1 := tcpSendData datos timeout a.2
    if s1.1 then (true, touchActivity s1.2)
    else
      let rc := tcpReconnectPersistent (markDisconnected s1.2)
      if rc.1 then
        let s2 := tcpSendData datos timeout rc.2
        if s2.1 then (true, touchActivity s2.2) else (false, s2.2)
      else (false, rc.2)
  else (false, a.2)

/-- Number of `+CASEND` headers in a trace: one per `tcpSendData` call, so it
counts the data-send attempts. -/
def sendAttempts : List SEvent → Nat
  | [] => 0
  | SEvent.casendHdr _ :: r => sendAttempts r + 1
  | _ :: r => sendAttempts r

/-- Number of keep-alive / status probes (`+CASTATE?` writes) in a trace. -/
def probeCount : List SEvent → Nat
  | [] => 0
  | SEvent.atCmd c :: r => (if c = castateCmd then 1 else 0) + probeCount r
  | _ :: r => probeCount r

/-- Is this write a `+CASEND` header? -/
def isSendHeader : SEvent → Bool
  | SEvent.casendHdr _ => true
  | _ => false

/-- Is this write a raw payload write? -/
def isPayloadWrite : SEvent → Bool
  | SEvent.payload _ => true
  | _ => false

/-- C4: for every caller-supplied timeout `t` and every signal/failure state,
the effective deadline used by `sendATCommand` and by `readResponse` equals
`max(t, getAdaptiveTimeout())` — the caller-suggested timeout is a floor,
never a ceiling. (Both functions block for exactly that long, so the clock
advance exhibits the deadline.) -/
theorem effective_deadline_is_max (t : Nat) (st : GsmSt) (c e : List Char) (w : World) :
    finalTimeout t st = max t (getAdaptiveTimeout st) ∧
    (sendATCommand c e t w).2.st.now = w.st.now + max t (getAdaptiveTimeout w.st) ∧
    (readResponse t w).2.st.now = w.st.now + max t (getAdaptiveTimeout w.st) := by
  refine ⟨?_, ?_, ?_⟩ <;>
    · simp [finalTimeout, sendATCommand, readResponse]
      split <;> omega

/-- C5: at fixed signal quality, `getAdaptiveTimeout` is monotonically
non-decreasing in the consecutive-failure count, and its result always lies
in the clamp band `[2000, 8000]`. -/
theorem getAdaptiveTimeout_monotone_clamped (s t : GsmSt)
    (hq : s.signalsim0 = t.signalsim0)
    (hf : s.consecutiveFailures ≤ t.consecutiveFailures) :
    getAdaptiveTimeout s ≤ getAdaptiveTimeout t ∧
    2000 ≤ getAdaptiveTimeout s ∧ getAdaptiveTimeout s ≤ 8000 := by
  refine ⟨?_, ?_, ?_⟩ <;>
    · simp only [getAdaptiveTimeout, hq]
      split_ifs <;> omega

/-- Witness for C5 at concrete states (quality 2, failures 0 versus 3). -/
theorem getAdaptiveTimeout_monotone_clamped_witness :
    getAdaptiveTimeout ⟨false, 0, 0, 30000, 0, 2, 0⟩ ≤
      getAdaptiveTimeout ⟨false, 0, 0, 30000, 3, 2, 0⟩ ∧
    2000 ≤ getAdaptiveTimeout ⟨false, 0, 0, 30000, 0, 2, 0⟩ ∧
    getAdaptiveTimeout ⟨false, 0, 0, 30000, 0, 2, 0⟩ ≤ 8000 :=
  getAdaptiveTimeout_monotone_clamped ⟨false, 0, 0, 30000, 0, 2, 0⟩
    ⟨false, 0, 0, 30000, 3, 2, 0⟩ rfl (by decide)

/-- C10: reconnect on an already-open session is success without side
effects: `tcpReconnectPersistent` returns `true` and the world — state,
serial environment and write trace — is untouched. -/
theorem tcpReconnectPersistent_noop_when_connected (w : World)
    (h : w.st.tcpConnected = true) :
    tcpReconnectPersistent w = (true, w) := by
  simp [tcpReconnectPersistent, h]

/-- A connected state used by witnesses. -/
def stOpen : GsmSt :=
  { tcpConnected := true, lastTcpActivity := 0, tcpReconnectAttempts := 0,
    tcpKeepAliveInterval := 30000, consecutiveFailures := 0, signalsim0 := 20, now := 0 }

/-- A connected world with an empty serial environment. -/
def wOpen : World := { st := stOpen, env := [], events := [] }

/-- Witness for C10 at a concrete connected world. -/
theorem tcpReconnectPersistent_noop_when_connected_witness :
    tcpReconnectPersistent wOpen = (true, wOpen) :=
  tcpReconnectPersistent_noop_when_connected wOpen rfl

/-- C7 (amended): once disconnected with the reconnect budget exhausted,
`tcpReconnectPersistent` is a pure failing no-op (no command issued, nothing
changed); the budget is zeroed whenever a reconnect newly opens the
connection; and in addition `tcpInitPersistent` zeroes the budget
unconditionally at entry (even when its open fails) while
`tcpClosePersistent` zeroes it when closing an open connection. -/
theorem reconnect_budget_spec :
    (∀ w : World, w.st.tcpConnected = false →
        w.st.tcpReconnectAttempts ≥ MAX_RECONNECT_ATTEMPTS →
        tcpReconnectPersistent w = (false, w)) ∧
    (∀ w w' : World, w.st.tcpConnected = false →
        tcpReconnectPersistent w = (true, w') →
        w'.st.tcpReconnectAttempts = 0 ∧ w'.st.tcpConnected = true) ∧
    (∀ w : World, (tcpInitPersistent w).2.st.tcpReconnectAttempts = 0) ∧
    (∀ w : World, w.st.tcpConnected = true →
        (tcpClosePersistent w).st.tcpReconnectAttempts = 0) := by
  refine ⟨?_, ?_, ?_, ?_⟩
  · intro w h1 h2
    simp only [tcpReconnectPersistent, h1]
    rw [if_neg (by simp), if_pos h2]
  · intro w w' h1 h2
    simp only [tcpReconnectPersistent, h1] at h2
    rw [if_neg (by simp)] at h2
    split at h2
    · exact absurd h2 (by simp)
    · split at h2
      · obtain ⟨-, rfl⟩ := Prod.mk.injEq .. ▸ h2
        exact ⟨rfl, rfl⟩
      · exact absurd h2 (by simp)
  · intro w
    unfold tcpInitPersistent
    dsimp only
    split <;> rfl
  · intro w h
    simp [tcpClosePersistent, h]

/-- A disconnected state with the reconnect budget exhausted. -/
def stHard : GsmSt :=
  { tcpConnected := false, lastTcpActivity := 0, tcpReconnectAttempts := 3,
    tcpKeepAliveInterval := 30000, consecutiveFailures := 0, signalsim0 := 20, now := 0 }

/-- A hard-failed world. -/
def wHard : World := { st := stHard, env := [], events := [] }

/-- Witness for C7 at the hard-failed world. -/
theorem reconnect_budget_spec_witness :
    tcpReconnectPersistent wHard = (false, wHard) ∧
    (tcpInitPersistent wHard).2.st.tcpReconnectAttempts = 0 :=
  ⟨reconnect_budget_spec.1 wHard rfl (by decide), reconnect_budget_spec.2.2.1 wHard⟩

/-- A disconnected world with budget 2 whose next open attempt gets a silent
modem (the open fails). -/
def wBudget : World :=
  { st := { tcpConnected := false, lastTcpActivity := 0, tcpReconnectAttempts := 2,
            tcpKeepAliveInterval := 30000, consecutiveFailures := 0, signalsim0 := 20,
            now := 0 },
    env := [⟨[], 0⟩], events := [] }

/-- C7 counterexample: `tcpInitPersistent` zeroes the reconnect budget even
when its open attempt fails and no connection is newly opened, so the budget
is not reset "exactly when a connection is newly opened successfully". -/
theorem tcpInitPersistent_budget_reset_cex :
    wBudget.st.tcpReconnectAttempts = 2 ∧
    (tcpInitPersistent wBudget).1 = false ∧
    (tcpInitPersistent wBudget).2.st.tcpConnected = false ∧
    (tcpInitPersistent wBudget).2.st.tcpReconnectAttempts = 0 := by
  refine ⟨rfl, ?_, ?_, ?_⟩ <;> rfl

/-- A world about to run a failing AT exchange with zero recorded failures. -/
def wC1fail : World :=
  { st := { tcpConnected := false, lastTcpActivity := 0, tcpReconnectAttempts := 0,
            tcpKeepAliveInterval := 30000, consecutiveFailures := 0, signalsim0 := 20,
            now := 0 },
    env := [⟨[], 0⟩], events := [] }

/-- A world about to run a succeeding AT exchange with five recorded failures. -/
def wC1succ : World :=
  { st := { tcpConnected := false, lastTcpActivity := 0, tcpReconnectAttempts := 0,
            tcpKeepAliveInterval := 30000, consecutiveFailures := 5, signalsim0 := 20,
            now := 0 },
    env := [⟨"OK".data, 0⟩], events := [] }

/-- C1 counterexample: a failed `sendATCommand` leaves `consecutiveFailures`
at 0 instead of incrementing it, and a successful one leaves it at 5 instead
of resetting it to 0. -/
theorem sendATCommand_failures_cex :
    (sendATCommand "AT+CSQ".data okTok 1000 wC1fail).1 = false ∧
    (sendATCommand "AT+CSQ".data okTok 1000 wC1fail).2.st.consecutiveFailures ≠
      wC1fail.st.consecutiveFailures + 1 ∧
    (sendATCommand "AT+CSQ".data okTok 1000 wC1succ).1 = true ∧
    (sendATCommand "AT+CSQ".data okTok 1000 wC1succ).2.st.consecutiveFailures ≠ 0 := by
  refine ⟨?_, ?_, ?_, ?_⟩ <;> decide

/-- C1 (amended): `sendATCommand` never modifies the global
`consecutiveFailures` counter, whatever the outcome of the exchange; the
counter is mutated only by `setupModem`'s connection bookkeeping. -/
theorem sendATCommand_preserves_consecutiveFailures (c e : List Char) (t : Nat)
    (w : World) :
    (sendATCommand c e t w).2.st.consecutiveFailures = w.st.consecutiveFailures := rfl

/-- An occurrence in the empty buffer forces the empty pattern. -/
theorem hasSubstr_nil_eq (p : List Char) (h : hasSubstr p [] = true) : p = [] := by
  simpa [hasSubstr] using h

/-- Buffer accumulation splits over byte-sequence concatenation. -/
theorem accumBuf_append (a b : List Char) :
    ∀ buf, accumBuf buf (a ++ b) = accumBuf (accumBuf buf a) b := by
  induction a with
  | nil => intro buf; rfl
  | cons c rest ih =>
    intro buf
    simp only [List.cons_append, accumBuf]
    exact ih _

/-- When the token is absent from the current buffer, the drain loop either
finds it, or ends on exactly the accumulated buffer with the token still
absent. -/
theorem drainTok_spec (token : List Char) (poll : List Char) :
    ∀ buf, hasSubstr token buf = false →
      (drainTok token buf poll).1 = true ∨
      (drainTok token buf poll = (false, accumBuf buf poll) ∧
        hasSubstr token (accumBuf buf poll) = false) := by
  induction poll with
  | nil => intro buf hb; exact Or.inr ⟨rfl, hb⟩
  | cons c rest ih =>
    intro buf hb
    simp only [drainTok, accumBuf]
    by_cases h : hasSubstr token (trimBuf 512 256 (buf ++ [c])) = true
    · rw [if_pos h]; exact Or.inl rfl
    · rw [if_neg h]
      exact ih (trimBuf 512 256 (buf ++ [c])) (Bool.not_eq_true _ ▸ h)

/-- If the (trimmed) accumulated buffer contains the token at the end of some
poll cycle `i` of the schedule, the wait loop reports success and returns
within `i` cycles. -/
theorem waitForTokenAux_finds (token : List Char) (polls : List (List Char)) :
    ∀ buf i, hasSubstr token buf = false → i < polls.length →
      hasSubstr token (accumBuf buf ((polls.take (i + 1)).flatten)) = true →
      (waitForTokenAux token buf polls).1 = true ∧
      (waitForTokenAux token buf polls).2.1 ≤ i := by
  induction polls with
  | nil => intro buf i _ hi _; simp at hi
  | cons poll rest ih =>
    intro buf i hb hi hp
    simp only [waitForTokenAux]
    rcases drainTok_spec token poll buf hb with hfound | ⟨heq, habs⟩
    · rw [if_pos hfound]
      exact ⟨rfl, Nat.zero_le i⟩
    · rw [heq]
      simp only [if_neg (Bool.false_ne_true)]
      cases i with
      | zero =>
        exfalso
        simp only [List.take_succ_cons, List.take_zero, List.flatten,
          List.flatten_nil, List.append_nil] at hp
        exact absurd hp (by simp [habs])
      | succ j =>
        have hj : j < rest.length := by simpa using hi
        have hp' : hasSubstr token
            (accumBuf (accumBuf buf poll) ((rest.take (j + 1)).flatten)) = true := by
          have : ((poll :: rest).take (j + 2)).flatten =
              poll ++ (rest.take (j + 1)).flatten := by
            simp [List.take_succ_cons]
          rw [this, accumBuf_append] at hp
          exact hp
        have := ih (accumBuf buf poll) j habs hj hp'
        exact ⟨this.1, by omega⟩

/-- The response-collection loop of `sendATCommand` consumes every poll cycle
it is given: it has no early exit. -/
theorem sendATGather_length (polls : List (List Char)) :
    ∀ resp, (sendATGather resp polls).2 = polls.length := by
  induction polls with
  | nil => intro resp; rfl
  | cons poll rest ih =>
    intro resp
    simp only [sendATGather, List.length_cons, ih]

/-- C2 (amended): whenever a non-empty success token becomes fully present in
the accumulated buffer by the end of poll cycle `i`, strictly before the
deadline (`i < timeout`) — in particular when its bytes are split across
separate availability polls — `waitForToken` returns success within `i`
cycles, strictly before the deadline elapses. `sendATCommand`'s inline
response wait, by contrast, always consumes the full deadline: it classifies
only after `timeout` cycles. -/
theorem waitForToken_early_success (token : List Char) (sched : Nat → List Char)
    (timeout i : Nat)
    (hne : token ≠ [])
    (hi : i < timeout)
    (hpresent : hasSubstr token
      (accumBuf [] ((((List.range timeout).map sched).take (i + 1)).flatten)) = true) :
    ((waitForToken token sched timeout).1 = true ∧
     (waitForToken token sched timeout).2.1 ≤ i ∧
     (waitForToken token sched timeout).2.1 < timeout) ∧
    (sendATCommandBytes token ((List.range timeout).map sched)).2 = timeout := by
  have hb : hasSubstr token [] = false := by
    cases token with
    | nil => exact absurd rfl hne
    | cons c r => rfl
  have hlen : i < ((List.range timeout).map sched).length := by simpa using hi
  have h := waitForTokenAux_finds token ((List.range timeout).map sched) [] i hb hlen hpresent
  refine ⟨⟨h.1, h.2, ?_⟩, ?_⟩
  · have h2 := h.2
    show (waitForTokenAux token [] ((List.range timeout).map sched)).2.1 < timeout
    omega
  · simp [sendATCommandBytes, sendATGather_length]

/-- C2 counterexample: with the token fully delivered in the very first poll
cycle of a five-cycle deadline, `sendATCommand`'s response wait still
consumes all five cycles — it yields the Success outcome but does not return
before the deadline elapses. -/
theorem sendATCommand_full_deadline_cex :
    hasSubstr "OK".data (accumBuf [] (([[('O' : Char), 'K'], [], [], [], []].take 1).flatten)) = true ∧
    (sendATCommandBytes "OK".data [[('O' : Char), 'K'], [], [], [], []]).1 = true ∧
    (sendATCommandBytes "OK".data [[('O' : Char), 'K'], [], [], [], []]).2 = 5 ∧
    ¬ (sendATCommandBytes "OK".data [[('O' : Char), 'K'], [], [], [], []]).2 < 5 := by
  refine ⟨?_, ?_, ?_, ?_⟩ <;> decide

/-- A stream delivering `'O'` in poll cycle 0 and `'K'` in poll cycle 1. -/
def schedC2 : Nat → List Char :=
  fun n => if n = 0 then ['O'] else if n = 1 then ['K'] else []

/-- Witness for C2 (amended): the split-delivery stream with deadline 5. -/
theorem waitForToken_early_success_witness :
    ((waitForToken "OK".data schedC2 5).1 = true ∧
     (waitForToken "OK".data schedC2 5).2.1 ≤ 1 ∧
     (waitForToken "OK".data schedC2 5).2.1 < 5) ∧
    (sendATCommandBytes "OK".data ((List.range 5).map schedC2)).2 = 5 :=
  waitForToken_early_success "OK".data schedC2 5 1 (by decide) (by decide) (by decide)

/-- When the drain loop of `waitForAnyToken` returns a non-zero outcome, that
outcome is the error-first classification of its final buffer; when it
returns 0, either nothing was consumed or the final buffer classifies to 0. -/
theorem drainAny_spec (okT errT : List (List Char)) (poll : List Char) :
    ∀ buf,
      ((drainAny okT errT buf poll).1 ≠ 0 →
        classifyTok okT errT (drainAny okT errT buf poll).2 =
          (drainAny okT errT buf poll).1) ∧
      ((drainAny okT errT buf poll).1 = 0 →
        (drainAny okT errT buf poll).2 = buf ∨
        classifyTok okT errT (drainAny okT errT buf poll).2 = 0) := by
  induction poll with
  | nil => exact fun buf => ⟨fun h => absurd rfl h, fun _ => Or.inl rfl⟩
  | cons c rest ih =>
    intro buf
    simp only [drainAny]
    by_cases h : classifyTok okT errT (trimBuf 1024 512 (buf ++ [c])) = 0
    · rw [if_pos h]
      refine ⟨(ih _).1, fun h0 => ?_⟩
      rcases (ih _).2 h0 with heq | hcl
      · exact Or.inr (by rw [heq]; exact h)
      · exact Or.inr hcl
    · rw [if_neg h]
      exact ⟨fun _ => rfl, fun h0 => absurd h0 h⟩

/-- Lift of `drainAny_spec` to the full wait loop of `waitForAnyToken`. -/
theorem waitForAnyAux_spec (okT errT : List (List Char)) (polls : List (List Char)) :
    ∀ buf,
      ((waitForAnyAux okT errT buf polls).1 ≠ 0 →
        classifyTok okT errT (waitForAnyAux okT errT buf polls).2.2 =
          (waitForAnyAux okT errT buf polls).1) ∧
      ((waitForAnyAux okT errT buf polls).1 = 0 →
        (waitForAnyAux okT errT buf polls).2.2 = buf ∨
        classifyTok okT errT (waitForAnyAux okT errT buf polls).2.2 = 0) := by
  induction polls with
  | nil => exact fun buf => ⟨fun h => absurd rfl h, fun _ => Or.inl rfl⟩
  | cons poll rest ih =>
    intro buf
    simp only [waitForAnyAux]
    by_cases h : (drainAny okT errT buf poll).1 = 0
    · rw [if_pos h]
      refine ⟨(ih _).1, fun h0 => ?_⟩
      rcases (ih _).2 h0 with heq | hcl
      · rw [heq]
        rcases (drainAny_spec okT errT poll buf).2 h with heq2 | hcl2
        · exact Or.inl heq2
        · exact Or.inr hcl2
      · exact Or.inr hcl
    · rw [if_neg h]
      exact ⟨fun _ => (drainAny_spec okT errT poll buf).1 h, fun h0 => absurd h0 h⟩

/-- C3: whenever the window `waitForAnyToken` classifies at its moment of
decision contains both some (non-empty) error token and some success token,
the outcome is the error outcome `-1`, never success: error tokens are
tested before success tokens. -/
theorem waitForAnyToken_error_priority (okT errT : List (List Char))
    (sched : Nat → List Char) (timeout : Nat)
    (hok : ∃ o ∈ okT, hasSubstr o (waitForAnyToken okT errT sched timeout).2.2 = true)
    (herr : ∃ e ∈ errT, e ≠ [] ∧
      hasSubstr e (waitForAnyToken okT errT sched timeout).2.2 = true) :
    (waitForAnyToken okT errT sched timeout).1 = -1 := by
  obtain ⟨e, he, hne, hee⟩ := herr
  simp only [waitForAnyToken] at hee ⊢
  have hhit : tokenHit (waitForAnyAux okT errT [] ((List.range timeout).map sched)).2.2
      errT = true := by
    simp only [tokenHit, List.any_eq_true]
    exact ⟨e, he, hee⟩
  have hcl : classifyTok okT errT
      (waitForAnyAux okT errT [] ((List.range timeout).map sched)).2.2 = -1 := by
    simp [classifyTok, hhit]
  have hspec := waitForAnyAux_spec okT errT ((List.range timeout).map sched) []
  by_cases h : (waitForAnyAux okT errT [] ((List.range timeout).map sched)).1 = 0
  · exfalso
    rcases hspec.2 h with heq | hcl0
    · rw [heq] at hee
      exact hne (hasSubstr_nil_eq e hee)
    · rw [hcl0] at hcl
      exact absurd hcl (by decide)
  · have := hspec.1 h
    rw [hcl] at this
    exact this.symm

/-- A stream delivering `"AB"` in its first poll cycle. -/
def schedC3 : Nat → List Char := fun n => if n = 0 then ['A', 'B'] else []

/-- Witness for C3: with success token `"B"` and error token `"AB"`, the byte
`'B'` completes both tokens in the same window, and the outcome is `-1`. -/
theorem waitForAnyToken_error_priority_witness :
    (waitForAnyToken [[('B' : Char)]] [[('A' : Char), 'B']] schedC3 2).1 = -1 :=
  waitForAnyToken_error_priority [[('B' : Char)]] [[('A' : Char), 'B']] schedC3 2
    (by decide) (by decide)

/-- Probe counting distributes over trace concatenation. -/
theorem probeCount_append (l1 l2 : List SEvent) :
    probeCount (l1 ++ l2) = probeCount l1 + probeCount l2 := by
  induction l1 with
  | nil => simp [probeCount]
  | cons e r ih => cases e <;> simp [probeCount, ih] <;> omega

/-- Send-attempt counting distributes over trace concatenation. -/
theorem sendAttempts_append (l1 l2 : List SEvent) :
    sendAttempts (l1 ++ l2) = sendAttempts l1 + sendAttempts l2 := by
  induction l1 with
  | nil => simp [sendAttempts]
  | cons e r ih => cases e <;> simp [sendAttempts, ih] <;> omega

/-- A connected world whose next status query will succeed. -/
def wKa : World :=
  { st := { tcpConnected := true, lastTcpActivity := 0, tcpReconnectAttempts := 0,
            tcpKeepAliveInterval := 30000, consecutiveFailures := 0, signalsim0 := 20,
            now := 0 },
    env := [⟨castateOk, 0⟩], events := [] }

/-- C9 counterexample: configure the keep-alive interval to 1000 ms and let
exactly 1000 ms (= X, so "at least X") elapse past `lastTcpActivity`: the
due-check is strict, so no keep-alive probe is issued — the call returns
`true` with the world unchanged and the trace empty. -/
theorem tcpKeepAlive_boundary_cex :
    usub32 (setNow 1000 (tcpConfigurePersistent 1000 wKa)).st.now
      (setNow 1000 (tcpConfigurePersistent 1000 wKa)).st.lastTcpActivity = 1000 ∧
    tcpKeepAlivePersistent (setNow 1000 (tcpConfigurePersistent 1000 wKa)) =
      (true, setNow 1000 (tcpConfigurePersistent 1000 wKa)) ∧
    probeCount
      (tcpKeepAlivePersistent (setNow 1000 (tcpConfigurePersistent 1000 wKa))).2.events
      = 0 := by
  refine ⟨?_, ?_, ?_⟩ <;> decide

/-- C9 (amended): `tcpConfigurePersistent` updates only the keep-alive
interval and does not reset the last-activity baseline; after configuring the
interval to `X`, advancing time strictly more than `X` past `lastTcpActivity`
(32-bit unsigned difference) makes the next maintenance call issue exactly
one keep-alive probe, which on success rearms the timer to the call's entry
time `t1`; an immediately following call — any call whose entry time is
within `X` of `t1` — issues no second probe and changes nothing. -/
theorem tcpKeepAlive_interval_spec (w : World) (X t1 : Nat)
    (hconn : w.st.tcpConnected = true)
    (hdue : usub32 t1 w.st.lastTcpActivity > X)
    (hresp : hasSubstr castateOk (nextEx w.env).1.resp = true) :
    (tcpConfigurePersistent X w).st.lastTcpActivity = w.st.lastTcpActivity ∧
    (tcpConfigurePersistent X w).st.tcpKeepAliveInterval = X ∧
    ∃ w2 : World,
      tcpKeepAlivePersistent (setNow t1 (tcpConfigurePersistent X w)) = (true, w2) ∧
      probeCount w2.events = probeCount w.events + 1 ∧
      w2.st.lastTcpActivity = t1 ∧
      ∀ t2, usub32 t2 t1 ≤ X →
        tcpKeepAlivePersistent (setNow t2 w2) = (true, setNow t2 w2) := by
  have hcond : (setNow t1 (tcpConfigurePersistent X w)).st.tcpConnected = true ∧
      usub32 (setNow t1 (tcpConfigurePersistent X w)).st.now
        (setNow t1 (tcpConfigurePersistent X w)).st.lastTcpActivity >
        (setNow t1 (tcpConfigurePersistent X w)).st.tcpKeepAliveInterval :=
    ⟨hconn, hdue⟩
  have hr : (sendATCommand castateCmd castateOk 5000
      (setNow t1 (tcpConfigurePersistent X w))).1 = true := hresp
  have hkey : tcpKeepAlivePersistent (setNow t1 (tcpConfigurePersistent X w)) =
      (true,
        { st := { w.st with
                  tcpKeepAliveInterval := X
                  lastTcpActivity := t1
                  now := t1 + finalTimeout 5000
                    { w.st with tcpKeepAliveInterval := X, now := t1 } }
          env := (nextEx w.env).2
          events := w.events ++ [SEvent.atCmd castateCmd] }) := by
    simp only [tcpKeepAlivePersistent]
    rw [if_pos hcond, if_pos hr]
    rfl
  refine ⟨rfl, rfl, ⟨_, hkey, ?_, rfl, ?_⟩⟩
  · simp [probeCount_append, probeCount]
  · intro t2 ht2
    simp only [tcpKeepAlivePersistent]
    rw [if_neg (fun h => Nat.not_lt.mpr ht2 h.2)]
    exact congrArg (fun b => (b, _)) hconn

/-- Witness for C9 (amended): interval 10, last activity 0, entry time 11. -/
theorem tcpKeepAlive_interval_spec_witness :
    (tcpConfigurePersistent 10 wKa).st.lastTcpActivity = wKa.st.lastTcpActivity ∧
    probeCount (tcpKeepAlivePersistent (setNow 11 (tcpConfigurePersistent 10 wKa))).2.events =
      probeCount wKa.events + 1 ∧
    (tcpKeepAlivePersistent (setNow 11 (tcpConfigurePersistent 10 wKa))).1 = true := by
  obtain ⟨h1, h2, w2, hk, hp, hl, hf⟩ :=
    tcpKeepAlive_interval_spec wKa 10 11 rfl (by decide) (by decide)
  refine ⟨h1, ?_, ?_⟩
  · rw [hk]
    exact hp
  · rw [hk]

/-- The only write a `sendATCommand` call adds to the trace is its command. -/
theorem sendATCommand_events (c e : List Char) (t : Nat) (w : World) :
    (sendATCommand c e t w).2.events = w.events ++ [SEvent.atCmd c] := rfl

/-- `tcpIsPersistentActive` writes at most the `+CASTATE?` query. -/
theorem tcpIsPersistentActive_events (w : World) :
    (tcpIsPersistentActive w).2.events = w.events ∨
    (tcpIsPersistentActive w).2.events = w.events ++ [SEvent.atCmd castateCmd] := by
  unfold tcpIsPersistentActive
  dsimp only
  split
  · split
    · exact Or.inr rfl
    · exact Or.inr rfl
  · exact Or.inl rfl

/-- `tcpReconnectPersistent` writes either nothing or exactly the close and
open commands. -/
theorem tcpReconnectPersistent_events (w : World) :
    (tcpReconnectPersistent w).2.events = w.events ∨
    (tcpReconnectPersistent w).2.events =
      w.events ++ [SEvent.atCmd cacloseCmd, SEvent.atCmd caopenCmd] := by
  unfold tcpReconnectPersistent
  dsimp only
  split
  · exact Or.inl rfl
  · split
    · exact Or.inl rfl
    · split
      · exact Or.inr (by simp [sendATCommand, delayW])
      · exact Or.inr (by simp [sendATCommand, delayW])

/-- C8: a `tcpSendPersistent` call whose active-check and subsequent
reconnect both fail returns the no-session failure with the world left at the
failed reconnect's result, and its whole trace contains no `+CASEND` header
and no payload write — the data send is never attempted. -/
theorem tcpSendPersistent_no_session (datos : List Char) (timeout : Nat)
    (w w1 w2 : World)
    (hev : w.events = [])
    (hact : tcpIsPersistentActive w = (false, w1))
    (hrc : tcpReconnectPersistent w1 = (false, w2)) :
    tcpSendPersistent datos timeout w = (false, w2) ∧
    ∀ ev ∈ w2.events, isSendHeader ev = false ∧ isPayloadWrite ev = false := by
  constructor
  · simp [tcpSendPersistent, sessionReady, hact, hrc]
  · have h1 := tcpIsPersistentActive_events w
    rw [hact] at h1
    have h2 := tcpReconnectPersistent_events w1
    rw [hrc] at h2
    intro ev hmem
    have hshape : ev = SEvent.atCmd castateCmd ∨ ev = SEvent.atCmd cacloseCmd ∨
        ev = SEvent.atCmd caopenCmd := by
      rcases h2 with h2 | h2 <;> rcases h1 with h1 | h1 <;>
        rw [h2, h1, hev] at hmem <;> simp at hmem <;> tauto
    rcases hshape with rfl | rfl | rfl <;> exact ⟨rfl, rfl⟩

/-- A connected world whose status query gets a silent modem and whose
reconnect budget is exhausted. -/
def wC8 : World :=
  { st := { tcpConnected := true, lastTcpActivity := 0, tcpReconnectAttempts := 3,
            tcpKeepAliveInterval := 30000, consecutiveFailures := 0, signalsim0 := 20,
            now := 0 },
    env := [⟨[], 0⟩], events := [] }

/-- Witness for C8: the failed active-check and refused reconnect yield the
no-session failure. -/
theorem tcpSendPersistent_no_session_witness :
    tcpSendPersistent [('h' : Char), 'i'] 100 wC8 = (false, (tcpIsPersistentActive wC8).2) :=
  (tcpSendPersistent_no_session [('h' : Char), 'i'] 100 wC8
    (tcpIsPersistentActive wC8).2 (tcpIsPersistentActive wC8).2 rfl rfl rfl).1

/-- `markDisconnected` only touches the state. -/
theorem markDisconnected_events (w : World) :
    (markDisconnected w).events = w.events := rfl

/-- A `tcpSendData` call adds its `+CASEND` header, and — when the prompt
arrives — the payload and line terminator. -/
theorem tcpSendData_events (d : List Char) (t : Nat) (w : World) :
    (tcpSendData d t w).2.events =
      w.events ++ [SEvent.casendHdr (casendHdrStr (d.length + 2))] ∨
    (tcpSendData d t w).2.events =
      w.events ++ [SEvent.casendHdr (casendHdrStr (d.length + 2)),
        SEvent.payload d, SEvent.lineEnd] := by
  unfold tcpSendData
  dsimp only
  split
  · exact Or.inr (by simp)
  · exact Or.inl rfl

/-- Every `tcpSendData` call makes exactly one send attempt. -/
theorem tcpSendData_sendAttempts (d : List Char) (t : Nat) (w : World) :
    sendAttempts (tcpSendData d t w).2.events = sendAttempts w.events + 1 := by
  rcases tcpSendData_events d t w with h | h <;>
    simp [h, sendAttempts_append, sendAttempts]

/-- The active-check makes no send attempt. -/
theorem tcpIsPersistentActive_sendAttempts (w : World) :
    sendAttempts (tcpIsPersistentActive w).2.events = sendAttempts w.events := by
  rcases tcpIsPersistentActive_events w with h | h <;>
    simp [h, sendAttempts_append, sendAttempts]

/-- A reconnect makes no send attempt. -/
theorem tcpReconnectPersistent_sendAttempts (w : World) :
    sendAttempts (tcpReconnectPersistent w).2.events = sendAttempts w.events := by
  rcases tcpReconnectPersistent_events w with h | h <;>
    simp [h, sendAttempts_append, sendAttempts]

/-- The entry guard of `tcpSendPersistent` makes no send attempt. -/
theorem sessionReady_sendAttempts (w : World) :
    sendAttempts (sessionReady w).2.events = sendAttempts w.events := by
  unfold sessionReady
  dsimp only
  split
  · exact tcpIsPersistentActive_sendAttempts w
  · rw [tcpReconnectPersistent_sendAttempts, tcpIsPersistentActive_sendAttempts]

/-- C6: when `tcpSendPersistent`'s first data-send attempt fails, the session
is marked disconnected before recovery; if the subsequent reconnect fails the
call returns failure after exactly one send attempt (no retry without a
fresh successful reconnect); if the reconnect succeeds exactly one retry is
attempted — two send attempts in total — and the call's outcome is the
retry's outcome, with `lastTcpActivity` rearmed on success and no further
automatic retries on failure. -/
theorem tcpSendPersistent_single_retry (datos : List Char) (timeout : Nat)
    (w w1 w2 : World)
    (hev : w.events = [])
    (hready : sessionReady w = (true, w1))
    (hfail1 : tcpSendData datos timeout w1 = (false, w2)) :
    (markDisconnected w2).st.tcpConnected = false ∧
    (∀ w3 : World, tcpReconnectPersistent (markDisconnected w2) = (false, w3) →
        tcpSendPersistent datos timeout w = (false, w3) ∧
        sendAttempts w3.events = 1) ∧
    (∀ (w3 : World) (r : Bool) (w4 : World),
        tcpReconnectPersistent (markDisconnected w2) = (true, w3) →
        tcpSendData datos timeout w3 = (r, w4) →
        sendAttempts w4.events = 2 ∧
        (r = true → tcpSendPersistent datos timeout w = (true, touchActivity w4)) ∧
        (r = false → tcpSendPersistent datos timeout w = (false, w4))) := by
  have hw1 : sendAttempts w1.events = 0 := by
    have h := sessionReady_sendAttempts w
    rw [hready, hev] at h
    simpa [sendAttempts] using h
  have hw2 : sendAttempts w2.events = 1 := by
    have h := tcpSendData_sendAttempts datos timeout w1
    simp only [hfail1] at h
    omega
  refine ⟨rfl, ?_, ?_⟩
  · intro w3 hrc
    constructor
    · simp [tcpSendPersistent, hready, hfail1, hrc]
    · have h := tcpReconnectPersistent_sendAttempts (markDisconnected w2)
      simp only [hrc, markDisconnected_events] at h
      omega
  · intro w3 r w4 hrc hs2
    have hw3 : sendAttempts w3.events = 1 := by
      have h := tcpReconnectPersistent_sendAttempts (markDisconnected w2)
      simp only [hrc, markDisconnected_events] at h
      omega
    have hw4 : sendAttempts w4.events = 2 := by
      have h := tcpSendData_sendAttempts datos timeout w3
      simp only [hs2] at h
      omega
    refine ⟨hw4, ?_, ?_⟩
    · intro hr
      subst hr
      simp [tcpSendPersistent, hready, hfail1, hrc, hs2]
    · intro hr
      subst hr
      simp [tcpSendPersistent, hready, hfail1, hrc, hs2]

/-- A connected world scripting: active-check OK; first send loses the
prompt; close OK; reopen OK; prompt OK; send OK. -/
def wC6 : World :=
  { st := { tcpConnected := true, lastTcpActivity := 0, tcpReconnectAttempts := 0,
            tcpKeepAliveInterval := 30000, consecutiveFailures := 0, signalsim0 := 20,
            now := 0 },
    env := [⟨castateOk, 0⟩, ⟨[], 0⟩, ⟨okTok, 0⟩, ⟨caopenOk, 0⟩, ⟨['>'], 0⟩,
            ⟨"SEND OK".data, 0⟩],
    events := [] }

/-- The world after `wC6`'s entry guard. -/
def w1C6 : World := (sessionReady wC6).2

/-- The world after `wC6`'s failed first send. -/
def w2C6 : World := (tcpSendData [('h' : Char), 'i'] 100 w1C6).2

/-- The world after the successful reconnect that follows. -/
def w3C6 : World := (tcpReconnectPersistent (markDisconnected w2C6)).2

/-- Witness for C6: the first-send-fails, reconnect-succeeds,
resend-succeeds scenario ends in success after exactly two send attempts. -/
theorem tcpSendPersistent_single_retry_witness :
    sendAttempts (tcpSendData [('h' : Char), 'i'] 100 w3C6).2.events = 2 ∧
    tcpSendPersistent [('h' : Char), 'i'] 100 wC6 =
      (true, touchActivity (tcpSendData [('h' : Char), 'i'] 100 w3C6).2) := by
  have h := tcpSendPersistent_single_retry [('h' : Char), 'i'] 100 wC6 w1C6 w2C6 rfl rfl rfl
  have h2 := h.2.2 w3C6 (tcpSendData [('h' : Char), 'i'] 100 w3C6).1
    (tcpSendData [('h' : Char), 'i'] 100 w3C6).2 rfl rfl
  exact ⟨h2.1, h2.2.1 rfl⟩
